import Mathlib

/-!
Verification of the Connection Orchestration Subsystem of the nabzram UI.

The definitions below are a shallow embedding of the TypeScript sources:
  * `src/ui/types.ts` — the data model (records on the wire),
  * `src/ui/App.tsx` `handleAutoConnect` — the cross-subscription auto-connect loop,
  * `src/ui/components/SubscriptionList.tsx` — the per-subscription url-test
    (`handleTestServers`), the single-subscription auto-connect
    (`handleAutoConnect` of `SubscriptionItem`) and the `PingResult` view,
  * the `LogStreamModal` component — the SSE log stream observer.

Asynchronous api calls are embedded as an explicit environment mapping each
request to its outcome (`Except String _` mirrors a promise that either
resolves or rejects with an error message), and each handler becomes a pure
function from that environment to a record of its observable effects: the api
calls it issued, the toasts it emitted and the state flags it set.
-/

namespace Nabzram

/-! ## Data model (src/ui/types.ts) -/

/-- `ServerTestResult` from src/ui/types.ts: the wire shape of one probe
result.  `ping_ms` is `number | null`, embedded as `Option Int`. -/
structure ServerTestResult where
  server_id : String
  remarks : String
  success : Bool
  ping_ms : Option Int
  err_msg : Option String
  socks_port : Nat
  http_port : Nat
deriving DecidableEq, Repr

/-- `SubscriptionUrlTestResponse` from src/ui/types.ts. -/
structure UrlTestResponse where
  success : Bool
  message : String
  subscription_id : String
  subscription_name : String
  total_servers : Nat
  successful_tests : Nat
  failed_tests : Nat
  results : List ServerTestResult
deriving DecidableEq, Repr

/-- `SubscriptionUserInfo` from src/ui/types.ts. -/
structure SubscriptionUserInfo where
  used_traffic : Int
  total : Option Int
  expire : Option String
deriving DecidableEq, Repr

/-- `Subscription` from src/ui/types.ts. -/
structure Subscription where
  id : String
  name : String
  url : String
  last_updated : Option String
  server_count : Nat
  user_info : Option SubscriptionUserInfo
deriving DecidableEq, Repr

/-! ## Ranking selection (App.tsx lines 118-124, SubscriptionList.tsx 261-271)

The source computes
`response.results.filter(r => r.success && r.ping_ms !== null && r.ping_ms > 0)
                 .sort((a, b) => a.ping_ms! - b.ping_ms!)`
and takes element `[0]`.  JavaScript `Array.prototype.sort` is a stable sort,
embedded here as `List.mergeSort` with the comparator as a `≤` test. -/

/-- The filter predicate `r.success && r.ping_ms !== null && r.ping_ms > 0`. -/
def isResponsive (r : ServerTestResult) : Bool :=
  r.success &&
    match r.ping_ms with
    | some p => decide (0 < p)
    | none => false

/-- The latency a result is sorted by; the comparator dereferences
`ping_ms!`, which the filter has already guaranteed to be non-null. -/
def pingv (r : ServerTestResult) : Int :=
  r.ping_ms.getD 0

/-- The comparator `(a, b) => a.ping_ms! - b.ping_ms!` keeps `a` before `b`
exactly when the difference is non-positive. -/
def byPing (a b : ServerTestResult) : Bool :=
  decide (pingv a ≤ pingv b)

/-- `successfulTests`: the filtered results, stably sorted by latency. -/
def successfulTests (results : List ServerTestResult) : List ServerTestResult :=
  (results.filter isResponsive).mergeSort byPing

/-- `bestServer = successfulTests[0]`, guarded in the source by a length
check; `none` models the guard failing. -/
def bestServer (results : List ServerTestResult) : Option ServerTestResult :=
  (successfulTests results).head?

/-! ## Api environment

`src/ui/services/api.ts` wraps `fetch`; every call returns a promise that
either resolves with the parsed body or rejects with an `Error` whose message
is extracted in the `catch` blocks.  The embedding supplies the outcome of
each request as an explicit environment. -/

/-- Outcomes of the api calls the orchestration code performs. -/
structure ApiEnv where
  /-- `POST /subscriptions/{id}/url-test`, keyed by subscription id. -/
  testSubscriptionServers : String → Except String UrlTestResponse
  /-- `POST /subscriptions/{subId}/servers/{serverId}/start`. -/
  startServer : String → String → Except String Unit
deriving Inhabited

/-! ## Cross-subscription auto-connect (App.tsx lines 105-142) -/

/-- The toasts `handleAutoConnect` in App.tsx can emit, one constructor per
`addToast` call site, carrying the interpolated data. -/
inductive AppToast where
  /-- info toast `Please add a subscription first.` (line 107) -/
  | addSubscriptionFirst
  /-- info toast `Finding the fastest server...` (line 111) -/
  | findingFastest
  /-- info toast `Testing subscription: NAME` (line 116) -/
  | testingSubscription (name : String)
  /-- success toast `Connected via NAME to REMARKS (PINGms)` (line 126) -/
  | connectedVia (name remarks : String) (ping : Int)
  /-- error toast `Skipping NAME: DETAIL` (line 133) -/
  | skipping (name detail : String)
  /-- error toast `Auto-connect failed: No responsive servers found in any
  subscription.` (line 138) -/
  | autoConnectFailed
deriving DecidableEq, Repr

/-- Observable effects of one run of the `for (const sub of subscriptions)`
loop body and its continuation. -/
structure LoopOutcome where
  /-- subscription ids passed to `api.testSubscriptionServers`, in call order -/
  probed : List String
  /-- `(subscription id, server id)` pairs passed to `api.startServer` -/
  starts : List (String × String)
  toasts : List AppToast
  /-- number of `fetchStatus()` calls -/
  statusFetches : Nat
  /-- final value of the `connected` flag -/
  connected : Bool
deriving DecidableEq, Repr

/-- The `for (const sub of subscriptions)` loop of App.tsx lines 115-135.
Each iteration toasts `Testing subscription: ...`, awaits the url-test, and:
a rejected url-test or a rejected start lands in the `catch` (toast
`Skipping ...`) and falls through to the next subscription; an empty
selection falls through silently; a fulfilled start toasts success, fetches
status, sets `connected` and breaks. -/
def handleAutoConnectLoop (env : ApiEnv) : List Subscription → LoopOutcome
  | [] => ⟨[], [], [], 0, false⟩
  | sub :: rest =>
    match env.testSubscriptionServers sub.id with
    | .error detail =>
      let r := handleAutoConnectLoop env rest
      ⟨sub.id :: r.probed, r.starts,
       .testingSubscription sub.name :: .skipping sub.name detail :: r.toasts,
       r.statusFetches, r.connected⟩
    | .ok response =>
      match bestServer response.results with
      | none =>
        let r := handleAutoConnectLoop env rest
        ⟨sub.id :: r.probed, r.starts,
         .testingSubscription sub.name :: r.toasts,
         r.statusFetches, r.connected⟩
      | some best =>
        match env.startServer sub.id best.server_id with
        | .ok _ =>
          ⟨[sub.id], [(sub.id, best.server_id)],
           [.testingSubscription sub.name,
            .connectedVia sub.name best.remarks (pingv best)],
           1, true⟩
        | .error detail =>
          let r := handleAutoConnectLoop env rest
          ⟨sub.id :: r.probed, (sub.id, best.server_id) :: r.starts,
           .testingSubscription sub.name :: .skipping sub.name detail :: r.toasts,
           r.statusFetches, r.connected⟩

/-- Observable effects of a whole `handleAutoConnect` run. -/
structure AutoConnectOutcome where
  probed : List String
  starts : List (String × String)
  toasts : List AppToast
  statusFetches : Nat
  connected : Bool
  /-- whether `setIsConnecting(true)` was reached -/
  enteredConnecting : Bool
deriving DecidableEq, Repr

/-- `handleAutoConnect` of App.tsx lines 105-142: the empty-catalog guard,
then the loop, then the `if (!connected)` failure summary. -/
def handleAutoConnect (env : ApiEnv) (subscriptions : List Subscription) :
    AutoConnectOutcome :=
  if subscriptions.length = 0 then
    ⟨[], [], [.addSubscriptionFirst], 0, false, false⟩
  else
    let r := handleAutoConnectLoop env subscriptions
    ⟨r.probed, r.starts,
     .findingFastest ::
       (r.toasts ++ if r.connected then [] else [.autoConnectFailed]),
     r.statusFetches, r.connected, true⟩

/-! ## Per-subscription handlers (SubscriptionList.tsx) -/

/-- The api requests a `SubscriptionItem` handler can issue. -/
inductive ApiCall where
  | getSubscriptionDetails (id : String)
  | testSubscriptionServers (id : String)
  | startServer (subId serverId : String)
  | stopServer
deriving DecidableEq, Repr

/-- The `TunnelState` of the spec as observed through the start/stop api:
`running` carries the identity committed by the last start. -/
inductive TunnelState where
  | stopped
  | running (subId serverId : String)
deriving DecidableEq, Repr

/-- Effect of one api call on the tunnel: only start and stop touch it. -/
def applyCall (t : TunnelState) : ApiCall → TunnelState
  | .startServer subId serverId => .running subId serverId
  | .stopServer => .stopped
  | .getSubscriptionDetails _ => t
  | .testSubscriptionServers _ => t

/-- Effect of a call trace on the tunnel. -/
def applyCalls (t : TunnelState) (calls : List ApiCall) : TunnelState :=
  calls.foldl applyCall t

/-- The toasts the `SubscriptionItem` handlers can emit. -/
inductive SubToast where
  /-- info `Testing servers for NAME...` -/
  | testingServers (name : String)
  /-- success `Testing complete. S/T servers responded.` -/
  | testingComplete (successful total : Nat)
  /-- error shown when the url-test promise rejects in `handleTestServers` -/
  | failedToTest (detail : String)
  /-- info `Finding the fastest server...` -/
  | findingFastest
  /-- error `Auto-connect failed: No responsive servers found.` -/
  | noResponsiveServers
  /-- success `Auto-connected to REMARKS (PINGms)` -/
  | autoConnected (remarks : String) (ping : Int)
  /-- error `Failed to auto-connect: DETAIL` -/
  | failedToAutoConnect (detail : String)
deriving DecidableEq, Repr

/-- `response.results.reduce(...)`: builds the object keyed by `server_id`;
a later result for the same key overwrites the earlier one. -/
def resultsMap (results : List ServerTestResult) :
    List (String × ServerTestResult) :=
  results.foldl
    (fun acc r =>
      if acc.any (fun kv => kv.1 = r.server_id) then
        acc.map (fun kv => if kv.1 = r.server_id then (r.server_id, r) else kv)
      else
        acc ++ [(r.server_id, r)])
    []

/-- Observable effects of `handleTestServers` (SubscriptionList.tsx lines
218-237). -/
structure TestServersOutcome where
  calls : List ApiCall
  testResults : List (String × ServerTestResult)
  toasts : List SubToast
deriving DecidableEq, Repr

/-- `handleTestServers`: toast, await the url-test, display the per-server
results and a completion toast; on rejection toast the error.  No other api
call is made. -/
def handleTestServers (env : ApiEnv) (sub : Subscription) : TestServersOutcome :=
  match env.testSubscriptionServers sub.id with
  | .ok response =>
    ⟨[.testSubscriptionServers sub.id], resultsMap response.results,
     [.testingServers sub.name,
      .testingComplete response.successful_tests response.total_servers]⟩
  | .error detail =>
    ⟨[.testSubscriptionServers sub.id], [],
     [.testingServers sub.name, .failedToTest detail]⟩

/-- Observable effects of the single-subscription `handleAutoConnect`
(SubscriptionList.tsx lines 239-281). -/
structure SubAutoOutcome where
  calls : List ApiCall
  testResults : List (String × ServerTestResult)
  toasts : List SubToast
  /-- whether `onConnect()` fired -/
  onConnectFired : Bool
deriving DecidableEq, Repr

/-- The single-subscription auto-connect: optionally loads the server list
for display, awaits the url-test, displays the results, and either reports
`No responsive servers found.` (empty selection, early return before any
start) or starts the best server; a rejected promise lands in the `catch`
toast. -/
def subHandleAutoConnect (env : ApiEnv) (sub : Subscription)
    (serversLoaded : Bool) : SubAutoOutcome :=
  let preCalls : List ApiCall :=
    if serversLoaded then [] else [.getSubscriptionDetails sub.id]
  match env.testSubscriptionServers sub.id with
  | .error detail =>
    ⟨preCalls ++ [.testSubscriptionServers sub.id], [],
     [.findingFastest, .failedToAutoConnect detail], false⟩
  | .ok response =>
    match bestServer response.results with
    | none =>
      ⟨preCalls ++ [.testSubscriptionServers sub.id],
       resultsMap response.results,
       [.findingFastest, .noResponsiveServers], false⟩
    | some best =>
      match env.startServer sub.id best.server_id with
      | .ok _ =>
        ⟨preCalls ++ [.testSubscriptionServers sub.id,
           .startServer sub.id best.server_id],
         resultsMap response.results,
         [.findingFastest, .autoConnected best.remarks (pingv best)], true⟩
      | .error detail =>
        ⟨preCalls ++ [.testSubscriptionServers sub.id,
           .startServer sub.id best.server_id],
         resultsMap response.results,
         [.findingFastest, .failedToAutoConnect detail], false⟩

/-! ## The `PingResult` view (SubscriptionList.tsx lines 66-71)

```
if (!result.success || result.ping_ms === null) {
    return <span ... title={result.error || 'Test failed'}>Timeout</span>;
}
return <span ...>{result.ping_ms} ms</span>;
```
-/

/-- What `PingResult` renders: the visible text of the span and its `title`
attribute (the hover tooltip), when present. -/
structure PingView where
  text : String
  title : Option String
deriving DecidableEq, Repr

/-- JavaScript `x || fallback` on a nullable string: both `null` and the
empty string are falsy. -/
def jsOrElse (s : Option String) (fallback : String) : String :=
  match s with
  | none => fallback
  | some v => if v = "" then fallback else v

/-- The `PingResult` component as a pure function of the result record. -/
def pingResultView (result : ServerTestResult) : PingView :=
  if !result.success || result.ping_ms.isNone then
    ⟨"Timeout", some (jsOrElse result.err_msg "Test failed")⟩
  else
    let p := result.ping_ms.getD 0
    ⟨s!"{p} ms", none⟩

/-! ## Probe engine results

The engine that produces `ServerTestResult` records is the Python backend of
this repository, which is not under src/; only its wire shape
(`ServerTestResult` in src/ui/types.ts) and its consumers are. -/

/-- Modelled from the spec: the outcome of one probe of the Probe Engine
(backend code not under src/).  Spec section 4.1: a probe launches a
transient engine instance, issues a test request and measures the elapsed
time from the start of the measurement to the first successful response;
any failure (timeout, process failed to start, endpoint unreachable,
TLS/handshake failure, non-2xx test response) carries a reason string. -/
inductive ProbeOutcome where
  /-- a first successful response was observed: the probe started measuring
  at `started_at` and saw the response at the later instant
  `first_response_at` (milliseconds) -/
  | ok (started_at first_response_at : Nat)
  /-- the probe failed with a human-readable reason -/
  | fail (reason : String)
deriving DecidableEq, Repr

/-- A successful response is observed strictly after the measurement starts. -/
def ProbeOutcome.wellTimed : ProbeOutcome → Prop
  | .ok t0 t1 => t0 < t1
  | .fail _ => True

/-- Modelled from the spec: the `ProbeResult` record the Probe Engine
(backend code not under src/) emits for one server — on success the measured
elapsed latency and no reason, on failure no latency and the reason
verbatim (spec sections 3 and 4.1, wire shape of section 6). -/
def probeResult (server_id remarks : String) (socks_port http_port : Nat) :
    ProbeOutcome → ServerTestResult
  | .ok t0 t1 =>
    ⟨server_id, remarks, true, some ((t1 : Int) - (t0 : Int)), none,
     socks_port, http_port⟩
  | .fail reason =>
    ⟨server_id, remarks, false, none, some reason, socks_port, http_port⟩

/-! ## The log-stream observer (LogStreamModal)

The component holds `isConnected` React state and one `useEffect` with
dependency array `[isConnected]`.  The effect body logs `Connecting to log
stream...` and constructs an `EventSource`; the cleanup closes it.  React
re-runs cleanup + body whenever the dependency changed since the last run.
`onopen` drops the connecting lines, logs `Connection established...` and
sets `isConnected = true`; `onerror` logs either `Connection lost. Please
close and reopen to reconnect.` (when the closure saw `isConnected = true`)
or `Failed to connect to log stream.`, sets `isConnected = false` and closes
the source. -/

/-- The system log lines `LogStreamModal` itself produces (stream payloads
are `line`). -/
inductive LogMsg where
  | connecting
  | established
  | connectionLost
  | failedToConnect
  | line (level msg : String)
deriving DecidableEq, Repr

/-- The modal state: the `isConnected` React state, the dependency value the
effect last ran with (the value its closures captured), how many
`EventSource` objects have been constructed, which one is currently open,
and the log entries. -/
structure LogStreamState where
  isConnected : Bool
  effectDep : Bool
  opened : Nat
  current : Option Nat
  logs : List LogMsg
deriving DecidableEq, Repr

/-- One run of the effect body: log `Connecting...`, construct a fresh
`EventSource` (it becomes the current one) and capture the dependency. -/
def runStreamEffect (s : LogStreamState) : LogStreamState :=
  { isConnected := s.isConnected, effectDep := s.isConnected,
    opened := s.opened + 1, current := some s.opened,
    logs := s.logs ++ [.connecting] }

/-- The re-render after a state update: if the `[isConnected]` dependency
changed since the effect last ran, React runs the cleanup (closing the
current source) and then the effect body again; otherwise nothing happens. -/
def rerenderLogStream (s : LogStreamState) : LogStreamState :=
  if s.isConnected = s.effectDep then s
  else runStreamEffect { s with current := none }

/-- Mounting the modal runs the effect for the first time. -/
def mountLogStream : LogStreamState :=
  runStreamEffect ⟨false, false, 0, none, []⟩

/-- The `onopen` handler of the current source, followed by the re-render:
drop the connecting lines, log `Connection established...`, set
`isConnected = true`. -/
def onOpenEvent (s : LogStreamState) : LogStreamState :=
  rerenderLogStream
    { s with isConnected := true,
             logs := s.logs.filter (fun m => m ≠ .connecting) ++ [.established] }

/-- The `onerror` handler of the current source, followed by the re-render:
log lost/failed (branching on the `isConnected` value the handler closure
captured, i.e. the dependency of the effect run that created it), set
`isConnected = false`, close the source. -/
def onErrorEvent (s : LogStreamState) : LogStreamState :=
  rerenderLogStream
    { s with isConnected := false, current := none,
             logs := s.logs ++
               [if s.effectDep then .connectionLost else .failedToConnect] }

/-- Recognizes a start request in a call trace. -/
def ApiCall.isStart : ApiCall → Bool
  | .startServer _ _ => true
  | _ => false

/-- Recognizes a `Skipping NAME: DETAIL` toast, the only record the
cross-subscription loop keeps of a failed subscription. -/
def AppToast.isSkipping : AppToast → Bool
  | .skipping _ _ => true
  | _ => false

/-! ## Concrete fixtures for the worked examples -/

/-- A responsive probe result at 80 ms. -/
def okServer : ServerTestResult :=
  ⟨"srvA", "Server A", true, some 80, none, 1080, 8080⟩

/-- A failed probe result. -/
def failServer : ServerTestResult :=
  ⟨"srvF", "Server F", false, none, some "timeout", 1081, 8081⟩

/-- Property P2 of the spec: `A` responsive at 500 ms. -/
def resA : ServerTestResult := ⟨"A", "Server A", true, some 500, none, 1080, 8080⟩

/-- Property P2 of the spec: `B` responsive at 120 ms. -/
def resB : ServerTestResult := ⟨"B", "Server B", true, some 120, none, 1082, 8082⟩

/-- Property P2 of the spec: `C` failed. -/
def resC : ServerTestResult := ⟨"C", "Server C", false, none, some "timeout", 1084, 8084⟩

/-- Property P2 of the spec: the probe-result sequence `[A, B, C]`. -/
def p2results : List ServerTestResult := [resA, resB, resC]

def subA : Subscription := ⟨"s1", "Sub One", "https://one.example/sub", none, 1, none⟩

def subB : Subscription := ⟨"s2", "Sub Two", "https://two.example/sub", none, 1, none⟩

def subC : Subscription := ⟨"s3", "Sub Three", "https://three.example/sub", none, 1, none⟩

/-- A url-test response with one responsive server. -/
def respOkOne : UrlTestResponse :=
  ⟨true, "url test done", "s1", "Sub One", 1, 1, 0, [okServer]⟩

/-- A url-test response in which every server failed. -/
def respAllFail : UrlTestResponse :=
  ⟨true, "url test done", "s2", "Sub Two", 1, 0, 1, [failServer]⟩

/-- Every url-test resolves (the first with a responsive server), but every
start request rejects. -/
def envStartRejected : ApiEnv :=
  ⟨fun id => if id = "s1" then .ok respOkOne else .ok respAllFail,
   fun _ _ => .error "Failed to start server"⟩

/-- The url-test of `s1` rejects, later ones find a responsive server, and
starts are accepted. -/
def envSecondWins : ApiEnv :=
  ⟨fun id => if id = "s1" then .error "catalog unreachable" else .ok respOkOne,
   fun _ _ => .ok ()⟩

/-- Every url-test resolves but with no responsive server. -/
def envSelNone : ApiEnv :=
  ⟨fun _ => .ok respAllFail, fun _ _ => .ok ()⟩

/-- A failed probe result with a non-timeout reason. -/
def unreachableResult : ServerTestResult :=
  ⟨"srvU", "Server U", false, none, some "endpoint unreachable", 1080, 8080⟩

/-! ## Properties of the ranking selection -/

theorem byPing_trans : ∀ a b c, byPing a b → byPing b c → byPing a c := by
  intro a b c hab hbc
  simp only [byPing, decide_eq_true_eq] at *
  omega

theorem byPing_total : ∀ a b, byPing a b || byPing b a := by
  intro a b
  simp only [byPing]
  rcases Int.le_total (pingv a) (pingv b) with h | h <;> simp [h]

theorem successfulTests_perm (results : List ServerTestResult) :
    (successfulTests results).Perm (results.filter isResponsive) :=
  List.mergeSort_perm _ byPing

theorem successfulTests_sorted (results : List ServerTestResult) :
    (successfulTests results).Pairwise (fun a b => pingv a ≤ pingv b) := by
  have h : ((results.filter isResponsive).mergeSort byPing).Pairwise
      (fun a b => byPing a b = true) :=
    List.sorted_mergeSort byPing_trans byPing_total (results.filter isResponsive)
  exact h.imp (fun hab => by simpa [byPing] using hab)

/-- If no result passes the responsiveness filter, the filtered list is empty
and the selection is empty. -/
theorem bestServer_eq_none {results : List ServerTestResult}
    (h : results.any isResponsive = false) :
    bestServer results = none := by
  have hf : results.filter isResponsive = [] := by
    rw [List.filter_eq_nil_iff]
    intro a ha
    have := List.any_eq_false.mp h a ha
    simpa using this
  simp [bestServer, successfulTests, hf]

/-- The head of the stable sort is the first-seen element of minimal latency:
the filtered list splits around the selected result `r`, everything in the
list has latency at least `pingv r`, and everything before `r` is strictly
slower. -/
theorem bestServer_first_min {results : List ServerTestResult}
    (hx : results.any isResponsive = true) :
    ∃ r l₁ l₂,
      bestServer results = some r ∧
      results.filter isResponsive = l₁ ++ r :: l₂ ∧
      (∀ y ∈ results.filter isResponsive, pingv r ≤ pingv y) ∧
      (∀ y ∈ l₁, pingv r < pingv y) := by
  classical
  set fl := results.filter isResponsive with hfl
  have hne : fl ≠ [] := by
    obtain ⟨a, ha, hresp⟩ := List.any_eq_true.mp hx
    exact List.ne_nil_of_mem (List.mem_filter.mpr ⟨ha, hresp⟩)
  have hperm : (fl.mergeSort byPing).Perm fl := List.mergeSort_perm _ byPing
  have hsne : fl.mergeSort byPing ≠ [] := by
    intro h0
    exact hne (List.eq_nil_of_length_eq_zero (by
      have := hperm.length_eq
      simp [h0] at this
      omega))
  obtain ⟨h, t, hs⟩ := List.exists_cons_of_ne_nil hsne
  have hbest : bestServer results = some h := by
    simp [bestServer, successfulTests, ← hfl, hs]
  -- minimality of the head
  have hsorted : (fl.mergeSort byPing).Pairwise (fun a b => byPing a b) :=
    List.sorted_mergeSort byPing_trans byPing_total fl
  have hmin : ∀ y ∈ fl, pingv h ≤ pingv y := by
    intro y hy
    have hy' : y ∈ fl.mergeSort byPing := hperm.mem_iff.mpr hy
    rw [hs] at hy'
    rcases List.mem_cons.mp hy' with rfl | hy''
    · exact le_refl _
    · have := List.rel_of_pairwise_cons (hs ▸ hsorted) hy''
      simpa [byPing] using this
  -- the elements tied with the head keep their relative order (stability),
  -- so the head is the first such element of the filtered list
  set p : ServerTestResult → Bool := fun y => decide (pingv y = pingv h) with hp
  have hph : p h = true := by simp [hp]
  have hmsmem : ∀ a ∈ fl.filter p, pingv a = pingv h := by
    intro a ha
    have := List.of_mem_filter ha
    simpa [hp] using this
  have hmspair : (fl.filter p).Pairwise (fun a b => byPing a b) := by
    apply List.pairwise_of_forall_mem_list
    intro a ha b hb
    have h1 := hmsmem a ha
    have h2 := hmsmem b hb
    simp [byPing, h1, h2]
  have hmssub : List.Sublist (fl.filter p) (fl.mergeSort byPing) :=
    List.sublist_mergeSort byPing_trans byPing_total hmspair (List.filter_sublist fl)
  have hmsfix : (fl.filter p).filter p = fl.filter p :=
    List.filter_eq_self.mpr (fun a ha => by
      have := hmsmem a ha
      simp [hp, this])
  have hsubf : List.Sublist (fl.filter p) ((fl.mergeSort byPing).filter p) := by
    have := hmssub.filter p
    rwa [hmsfix] at this
  have hlen : (fl.filter p).length = ((fl.mergeSort byPing).filter p).length :=
    ((hperm.filter p).length_eq).symm
  have hfeq : fl.filter p = (fl.mergeSort byPing).filter p :=
    hsubf.eq_of_length hlen
  have hhead : fl.filter p = h :: t.filter p := by
    rw [hfeq, hs, List.filter_cons_of_pos hph]
  obtain ⟨l₁, l₂, hsplit, hl₁, -, -⟩ := List.filter_eq_cons_iff.mp hhead
  refine ⟨h, l₁, l₂, hbest, hsplit, hmin, ?_⟩
  intro y hy
  have hyfl : y ∈ fl := by
    rw [hsplit]
    exact List.mem_append.mpr (Or.inl hy)
  have hle := hmin y hyfl
  have hne' : pingv y ≠ pingv h := by
    have := hl₁ y hy
    simpa [hp] using this
  omega

/-! ## Properties of the auto-connect loop -/

/-- The loop probes a prefix of the input order: the probed ids are always
`take n` of the input id sequence. -/
theorem handleAutoConnectLoop_probed_take (env : ApiEnv) :
    ∀ subs : List Subscription, ∃ n,
      (handleAutoConnectLoop env subs).probed =
        (subs.map Subscription.id).take n := by
  intro subs
  induction subs with
  | nil => exact ⟨0, rfl⟩
  | cons sub rest ih =>
    obtain ⟨n, hn⟩ := ih
    cases htest : env.testSubscriptionServers sub.id with
    | error detail =>
      exact ⟨n + 1, by simp [handleAutoConnectLoop, htest, hn]⟩
    | ok response =>
      cases hbest : bestServer response.results with
      | none =>
        exact ⟨n + 1, by simp [handleAutoConnectLoop, htest, hbest, hn]⟩
      | some best =>
        cases hstart : env.startServer sub.id best.server_id with
        | ok u =>
          exact ⟨1, by simp [handleAutoConnectLoop, htest, hbest, hstart]⟩
        | error detail =>
          exact ⟨n + 1, by simp [handleAutoConnectLoop, htest, hbest, hstart, hn]⟩

/-- If the loop ends without a connection, every subscription was probed, in
order. -/
theorem handleAutoConnectLoop_all_probed (env : ApiEnv) :
    ∀ subs : List Subscription,
      (handleAutoConnectLoop env subs).connected = false →
      (handleAutoConnectLoop env subs).probed = subs.map Subscription.id := by
  intro subs
  induction subs with
  | nil => intro _; rfl
  | cons sub rest ih =>
    intro hc
    cases htest : env.testSubscriptionServers sub.id with
    | error detail =>
      have hc' : (handleAutoConnectLoop env rest).connected = false := by
        simpa [handleAutoConnectLoop, htest] using hc
      simp [handleAutoConnectLoop, htest, ih hc']
    | ok response =>
      cases hbest : bestServer response.results with
      | none =>
        have hc' : (handleAutoConnectLoop env rest).connected = false := by
          simpa [handleAutoConnectLoop, htest, hbest] using hc
        simp [handleAutoConnectLoop, htest, hbest, ih hc']
      | some best =>
        cases hstart : env.startServer sub.id best.server_id with
        | ok u =>
          simp [handleAutoConnectLoop, htest, hbest, hstart] at hc
        | error detail =>
          have hc' : (handleAutoConnectLoop env rest).connected = false := by
            simpa [handleAutoConnectLoop, htest, hbest, hstart] using hc
          simp [handleAutoConnectLoop, htest, hbest, hstart, ih hc']

/-- The loop itself never emits the overall failure summary. -/
theorem handleAutoConnectLoop_no_summary (env : ApiEnv) :
    ∀ subs : List Subscription,
      AppToast.autoConnectFailed ∉ (handleAutoConnectLoop env subs).toasts := by
  intro subs
  induction subs with
  | nil => simp [handleAutoConnectLoop]
  | cons sub rest ih =>
    cases htest : env.testSubscriptionServers sub.id with
    | error detail =>
      simp [handleAutoConnectLoop, htest, ih]
    | ok response =>
      cases hbest : bestServer response.results with
      | none => simp [handleAutoConnectLoop, htest, hbest, ih]
      | some best =>
        cases hstart : env.startServer sub.id best.server_id with
        | ok u => simp [handleAutoConnectLoop, htest, hbest, hstart]
        | error detail => simp [handleAutoConnectLoop, htest, hbest, hstart, ih]

/-- A probed subscription whose url-test rejected left a `Skipping` toast
carrying its rejection message. -/
theorem handleAutoConnectLoop_skip_recorded (env : ApiEnv) :
    ∀ subs : List Subscription, ∀ sid msg,
      sid ∈ (handleAutoConnectLoop env subs).probed →
      env.testSubscriptionServers sid = .error msg →
      ∃ nm, AppToast.skipping nm msg ∈ (handleAutoConnectLoop env subs).toasts := by
  intro subs
  induction subs with
  | nil => intro sid msg h; simp [handleAutoConnectLoop] at h
  | cons sub rest ih =>
    intro sid msg hmem herr
    cases htest : env.testSubscriptionServers sub.id with
    | error detail =>
      rw [show handleAutoConnectLoop env (sub :: rest) =
            ⟨sub.id :: (handleAutoConnectLoop env rest).probed,
             (handleAutoConnectLoop env rest).starts,
             .testingSubscription sub.name :: .skipping sub.name detail ::
               (handleAutoConnectLoop env rest).toasts,
             (handleAutoConnectLoop env rest).statusFetches,
             (handleAutoConnectLoop env rest).connected⟩
          from by simp [handleAutoConnectLoop, htest]] at hmem ⊢
      rcases List.mem_cons.mp hmem with rfl | hmem'
      · have : detail = msg := by
          rw [htest] at herr
          exact (Except.error.injEq _ _).mp herr
        exact ⟨sub.name, by simp [this]⟩
      · obtain ⟨nm, hnm⟩ := ih sid msg hmem' herr
        exact ⟨nm, by simp [hnm]⟩
    | ok response =>
      cases hbest : bestServer response.results with
      | none =>
        rw [show handleAutoConnectLoop env (sub :: rest) =
              ⟨sub.id :: (handleAutoConnectLoop env rest).probed,
               (handleAutoConnectLoop env rest).starts,
               .testingSubscription sub.name ::
                 (handleAutoConnectLoop env rest).toasts,
               (handleAutoConnectLoop env rest).statusFetches,
               (handleAutoConnectLoop env rest).connected⟩
            from by simp [handleAutoConnectLoop, htest, hbest]] at hmem ⊢
        rcases List.mem_cons.mp hmem with rfl | hmem'
        · rw [htest] at herr; cases herr
        · obtain ⟨nm, hnm⟩ := ih sid msg hmem' herr
          exact ⟨nm, by simp [hnm]⟩
      | some best =>
        cases hstart : env.startServer sub.id best.server_id with
        | ok u =>
          rw [show handleAutoConnectLoop env (sub :: rest) =
                ⟨[sub.id], [(sub.id, best.server_id)],
                 [.testingSubscription sub.name,
                  .connectedVia sub.name best.remarks (pingv best)], 1, true⟩
              from by simp [handleAutoConnectLoop, htest, hbest, hstart]] at hmem
          have : sid = sub.id := by simpa using hmem
          rw [this, htest] at herr; cases herr
        | error detail =>
          rw [show handleAutoConnectLoop env (sub :: rest) =
                ⟨sub.id :: (handleAutoConnectLoop env rest).probed,
                 (sub.id, best.server_id) ::
                   (handleAutoConnectLoop env rest).starts,
                 .testingSubscription sub.name :: .skipping sub.name detail ::
                   (handleAutoConnectLoop env rest).toasts,
                 (handleAutoConnectLoop env rest).statusFetches,
                 (handleAutoConnectLoop env rest).connected⟩
              from by simp [handleAutoConnectLoop, htest, hbest, hstart]] at hmem ⊢
          rcases List.mem_cons.mp hmem with rfl | hmem'
          · rw [htest] at herr; cases herr
          · obtain ⟨nm, hnm⟩ := ih sid msg hmem' herr
            exact ⟨nm, by simp [hnm]⟩

/-- As long as no subscription has connected, the loop over `pre ++ l`
decomposes into the loop over `pre` followed by the loop over `l`. -/
theorem handleAutoConnectLoop_append (env : ApiEnv) (l : List Subscription) :
    ∀ pre : List Subscription,
      (handleAutoConnectLoop env pre).connected = false →
      handleAutoConnectLoop env (pre ++ l) =
        ⟨(handleAutoConnectLoop env pre).probed ++
           (handleAutoConnectLoop env l).probed,
         (handleAutoConnectLoop env pre).starts ++
           (handleAutoConnectLoop env l).starts,
         (handleAutoConnectLoop env pre).toasts ++
           (handleAutoConnectLoop env l).toasts,
         (handleAutoConnectLoop env pre).statusFetches +
           (handleAutoConnectLoop env l).statusFetches,
         (handleAutoConnectLoop env l).connected⟩ := by
  intro pre
  induction pre with
  | nil => intro _; simp [handleAutoConnectLoop]
  | cons sub rest ih =>
    intro hc
    cases htest : env.testSubscriptionServers sub.id with
    | error detail =>
      have hc' : (handleAutoConnectLoop env rest).connected = false := by
        simpa [handleAutoConnectLoop, htest] using hc
      simp [handleAutoConnectLoop, htest, ih hc', Nat.add_assoc]
    | ok response =>
      cases hbest : bestServer response.results with
      | none =>
        have hc' : (handleAutoConnectLoop env rest).connected = false := by
          simpa [handleAutoConnectLoop, htest, hbest] using hc
        simp [handleAutoConnectLoop, htest, hbest, ih hc', Nat.add_assoc]
      | some best =>
        cases hstart : env.startServer sub.id best.server_id with
        | ok u =>
          simp [handleAutoConnectLoop, htest, hbest, hstart] at hc
        | error detail =>
          have hc' : (handleAutoConnectLoop env rest).connected = false := by
            simpa [handleAutoConnectLoop, htest, hbest, hstart] using hc
          simp [handleAutoConnectLoop, htest, hbest, hstart, ih hc', Nat.add_assoc]

/-! ## The claims -/

/-- C1 (counterexample).  The claim says that whenever the selection returns
a result for some subscription the loop stops and no later subscription is
ever probed.  In App.tsx a rejected `api.startServer` lands in the same
`catch` as a rejected url-test, so the loop continues: here the selection
returns a result for `s1` and start is called, yet `s2` is probed
afterwards. -/
theorem c1_counterexample :
    bestServer respOkOne.results = some okServer ∧
    envStartRejected.testSubscriptionServers subA.id = .ok respOkOne ∧
    (handleAutoConnect envStartRejected [subA, subB]).starts =
      [(subA.id, okServer.server_id)] ∧
    (handleAutoConnect envStartRejected [subA, subB]).probed = ["s1", "s2"] := by
  refine ⟨?_, by simp [envStartRejected, subA], ?_, ?_⟩ <;>
    simp [handleAutoConnect, handleAutoConnectLoop, envStartRejected,
      respOkOne, respAllFail, okServer, failServer, subA, subB,
      bestServer, successfulTests, isResponsive, List.mergeSort]

/-- C1 (amended): whenever the loop reaches a subscription (nothing before
it has connected), the selection returns a result for it and the subsequent
Start call succeeds, then Start is called on that server within that
subscription and the loop stops — no subscription occurring after it is
ever probed. -/
theorem c1_first_success_wins (env : ApiEnv) (pre : List Subscription)
    (sub : Subscription) (rest : List Subscription)
    (response : UrlTestResponse) (best : ServerTestResult)
    (hpre : (handleAutoConnectLoop env pre).connected = false)
    (htest : env.testSubscriptionServers sub.id = .ok response)
    (hsel : bestServer response.results = some best)
    (hstart : env.startServer sub.id best.server_id = .ok ()) :
    (handleAutoConnect env (pre ++ sub :: rest)).probed =
      (handleAutoConnectLoop env pre).probed ++ [sub.id] ∧
    (handleAutoConnect env (pre ++ sub :: rest)).starts =
      (handleAutoConnectLoop env pre).starts ++ [(sub.id, best.server_id)] ∧
    (handleAutoConnect env (pre ++ sub :: rest)).connected = true ∧
    AppToast.connectedVia sub.name best.remarks (pingv best) ∈
      (handleAutoConnect env (pre ++ sub :: rest)).toasts := by
  have hstep : handleAutoConnectLoop env (sub :: rest) =
      ⟨[sub.id], [(sub.id, best.server_id)],
       [.testingSubscription sub.name,
        .connectedVia sub.name best.remarks (pingv best)], 1, true⟩ := by
    simp [handleAutoConnectLoop, htest, hsel, hstart]
  have happ := handleAutoConnectLoop_append env (sub :: rest) pre hpre
  rw [hstep] at happ
  have hlen : ¬ (pre ++ sub :: rest).length = 0 := by simp
  refine ⟨?_, ?_, ?_, ?_⟩ <;>
    simp [handleAutoConnect, hlen, happ]

/-- C1 (witness for the amended theorem): the url-test of `s1` rejects,
`s2` has a responsive server and its start succeeds, `s3` follows. -/
theorem c1_first_success_wins_witness :
    (handleAutoConnectLoop envSecondWins [subA]).connected = false ∧
    envSecondWins.testSubscriptionServers subB.id = .ok respOkOne ∧
    bestServer respOkOne.results = some okServer ∧
    envSecondWins.startServer subB.id okServer.server_id = .ok () ∧
    ((handleAutoConnect envSecondWins ([subA] ++ subB :: [subC])).probed =
       (handleAutoConnectLoop envSecondWins [subA]).probed ++ [subB.id] ∧
     (handleAutoConnect envSecondWins ([subA] ++ subB :: [subC])).starts =
       (handleAutoConnectLoop envSecondWins [subA]).starts ++
         [(subB.id, okServer.server_id)] ∧
     (handleAutoConnect envSecondWins ([subA] ++ subB :: [subC])).connected =
       true ∧
     AppToast.connectedVia subB.name okServer.remarks (pingv okServer) ∈
       (handleAutoConnect envSecondWins ([subA] ++ subB :: [subC])).toasts) := by
  have h1 : (handleAutoConnectLoop envSecondWins [subA]).connected = false := by
    simp [handleAutoConnectLoop, envSecondWins, subA]
  have h2 : envSecondWins.testSubscriptionServers subB.id = .ok respOkOne := by
    simp [envSecondWins, subB]
  have h3 : bestServer respOkOne.results = some okServer := by
    simp [bestServer, successfulTests, respOkOne, okServer, isResponsive,
      List.mergeSort]
  have h4 : envSecondWins.startServer subB.id okServer.server_id = .ok () := rfl
  exact ⟨h1, h2, h3, h4,
    c1_first_success_wins envSecondWins [subA] subB [subC] respOkOne okServer
      h1 h2 h3 h4⟩

/-- C2: on any probe-result sequence containing a responsive result, the
selection keeps exactly the responsive results, sorts them ascending by
latency, and picks a result that splits the filtered sequence so that
everything is at least as slow and everything before it is strictly slower —
the first-seen result of minimal latency. -/
theorem c2_ranking_selection (results : List ServerTestResult)
    (hx : results.any isResponsive = true) :
    (successfulTests results).Perm (results.filter isResponsive) ∧
    (successfulTests results).Pairwise (fun a b => pingv a ≤ pingv b) ∧
    ∃ r l₁ l₂,
      bestServer results = some r ∧
      results.filter isResponsive = l₁ ++ r :: l₂ ∧
      (∀ y ∈ results.filter isResponsive, pingv r ≤ pingv y) ∧
      (∀ y ∈ l₁, pingv r < pingv y) :=
  ⟨successfulTests_perm results, successfulTests_sorted results,
   bestServer_first_min hx⟩

/-- C2 (witness): property P2 of the spec, `[A 500ms ok, B 120ms ok, C fail]`
selects `B`. -/
theorem c2_ranking_selection_witness :
    p2results.any isResponsive = true ∧
    bestServer p2results = some resB ∧
    ((successfulTests p2results).Perm (p2results.filter isResponsive) ∧
     (successfulTests p2results).Pairwise (fun a b => pingv a ≤ pingv b) ∧
     ∃ r l₁ l₂,
       bestServer p2results = some r ∧
       p2results.filter isResponsive = l₁ ++ r :: l₂ ∧
       (∀ y ∈ p2results.filter isResponsive, pingv r ≤ pingv y) ∧
       (∀ y ∈ l₁, pingv r < pingv y)) := by
  refine ⟨by decide, ?_, c2_ranking_selection p2results (by decide)⟩
  simp [bestServer, successfulTests, p2results, resA, resB, resC,
    isResponsive, byPing, pingv, List.mergeSort]

/-- C3: when no result is responsive the selection is empty, and the
single-subscription auto-connect then issues no start call (the tunnel is
untouched), reports `No responsive servers found.` and does not fire its
connected callback. -/
theorem c3_empty_selection (env : ApiEnv) (sub : Subscription)
    (serversLoaded : Bool) (response : UrlTestResponse)
    (hnone : response.results.any isResponsive = false)
    (htest : env.testSubscriptionServers sub.id = .ok response) :
    bestServer response.results = none ∧
    (subHandleAutoConnect env sub serversLoaded).calls.all
      (fun c => !c.isStart) = true ∧
    (∀ t, applyCalls t (subHandleAutoConnect env sub serversLoaded).calls = t) ∧
    SubToast.noResponsiveServers ∈
      (subHandleAutoConnect env sub serversLoaded).toasts ∧
    (subHandleAutoConnect env sub serversLoaded).onConnectFired = false := by
  have hb := bestServer_eq_none hnone
  refine ⟨hb, ?_, ?_, ?_, ?_⟩ <;>
    cases serversLoaded <;>
      simp [subHandleAutoConnect, htest, hb, ApiCall.isStart, applyCalls,
        applyCall]

/-- C3 (witness): property P3 of the spec, an all-failure response. -/
theorem c3_empty_selection_witness :
    respAllFail.results.any isResponsive = false ∧
    envSelNone.testSubscriptionServers subB.id = .ok respAllFail ∧
    (bestServer respAllFail.results = none ∧
     (subHandleAutoConnect envSelNone subB true).calls.all
       (fun c => !c.isStart) = true ∧
     (∀ t, applyCalls t (subHandleAutoConnect envSelNone subB true).calls = t) ∧
     SubToast.noResponsiveServers ∈
       (subHandleAutoConnect envSelNone subB true).toasts ∧
     (subHandleAutoConnect envSelNone subB true).onConnectFired = false) :=
  ⟨by decide, rfl,
   c3_empty_selection envSelNone subB true respAllFail (by decide) rfl⟩

/-- C4 (counterexample).  The claim says a subscription whose selector
returns none has its failure reason recorded.  In App.tsx the empty-selection
case falls through silently: here both subscriptions probe but select
nothing, iteration continues and the summary is shown, yet no `Skipping`
toast (the only per-subscription failure record) exists. -/
theorem c4_counterexample :
    bestServer respAllFail.results = none ∧
    (handleAutoConnect envSelNone [subA, subB]).probed = ["s1", "s2"] ∧
    (handleAutoConnect envSelNone [subA, subB]).toasts =
      [.findingFastest, .testingSubscription "Sub One",
       .testingSubscription "Sub Two", .autoConnectFailed] ∧
    (handleAutoConnect envSelNone [subA, subB]).toasts.all
      (fun t => !t.isSkipping) = true := by
  have hb : bestServer respAllFail.results = none := by
    simp [bestServer, successfulTests, respAllFail, failServer, isResponsive,
      List.mergeSort]
  have htoasts : (handleAutoConnect envSelNone [subA, subB]).toasts =
      [.findingFastest, .testingSubscription "Sub One",
       .testingSubscription "Sub Two", .autoConnectFailed] := by
    simp [handleAutoConnect, handleAutoConnectLoop, envSelNone, subA, subB, hb]
  refine ⟨hb, ?_, htoasts, ?_⟩
  · simp [handleAutoConnect, handleAutoConnectLoop, envSelNone, subA, subB, hb]
  · rw [htoasts]; decide

/-- C4 (amended): a subscription whose url-test rejects or whose selection
is empty never aborts the run — iteration continues, and if nothing
connected every subscription was probed in order; the failure summary is
reported (as a toast, not an exception) exactly when the input was nonempty
and nothing connected; a rejected url-test (but not an empty selection)
leaves a `Skipping` toast carrying its reason. -/
theorem c4_failure_accumulation (env : ApiEnv) (subs : List Subscription) :
    (AppToast.autoConnectFailed ∈ (handleAutoConnect env subs).toasts ↔
      subs ≠ [] ∧ (handleAutoConnect env subs).connected = false) ∧
    ((handleAutoConnect env subs).connected = false →
      (handleAutoConnect env subs).probed = subs.map Subscription.id) ∧
    (∀ sid msg, sid ∈ (handleAutoConnect env subs).probed →
      env.testSubscriptionServers sid = .error msg →
      ∃ nm, AppToast.skipping nm msg ∈ (handleAutoConnect env subs).toasts) := by
  by_cases hempty : subs.length = 0
  · have hnil : subs = [] := List.length_eq_zero.mp hempty
    subst hnil
    refine ⟨?_, ?_, ?_⟩ <;> simp [handleAutoConnect]
  · have hne : subs ≠ [] := by
      intro h
      exact hempty (by simp [h])
    have hout : handleAutoConnect env subs =
        ⟨(handleAutoConnectLoop env subs).probed,
         (handleAutoConnectLoop env subs).starts,
         .findingFastest :: ((handleAutoConnectLoop env subs).toasts ++
           if (handleAutoConnectLoop env subs).connected then []
           else [.autoConnectFailed]),
         (handleAutoConnectLoop env subs).statusFetches,
         (handleAutoConnectLoop env subs).connected, true⟩ := by
      simp [handleAutoConnect, hempty]
    rw [hout]
    refine ⟨?_, ?_, ?_⟩
    · constructor
      · intro hmem
        refine ⟨hne, ?_⟩
        cases hcon : (handleAutoConnectLoop env subs).connected
        · rfl
        · rw [hcon] at hmem
          simp at hmem
          exact absurd hmem (handleAutoConnectLoop_no_summary env subs)
      · rintro ⟨-, hc⟩
        have hc' : (handleAutoConnectLoop env subs).connected = false := hc
        simp [hc']
    · intro hc
      exact handleAutoConnectLoop_all_probed env subs hc
    · intro sid msg hmem herr
      obtain ⟨nm, hnm⟩ :=
        handleAutoConnectLoop_skip_recorded env subs sid msg hmem herr
      exact ⟨nm, by simp [hnm]⟩

/-- C4 (witness for the amended theorem): two subscriptions, neither with a
responsive server, produce the failure summary. -/
theorem c4_failure_accumulation_witness :
    ([subA, subB] ≠ ([] : List Subscription)) ∧
    (handleAutoConnect envSelNone [subA, subB]).connected = false ∧
    AppToast.autoConnectFailed ∈
      (handleAutoConnect envSelNone [subA, subB]).toasts := by
  have hb : bestServer respAllFail.results = none := by
    simp [bestServer, successfulTests, respAllFail, failServer, isResponsive,
      List.mergeSort]
  have hc : (handleAutoConnect envSelNone [subA, subB]).connected = false := by
    simp [handleAutoConnect, handleAutoConnectLoop, envSelNone, subA, subB, hb]
  exact ⟨by simp, hc,
    ((c4_failure_accumulation envSelNone [subA, subB]).1).mpr ⟨by simp, hc⟩⟩

/-- C5: auto-connect probes the subscriptions in exactly the input order,
never re-sorting or skipping ahead: the probed ids are always an initial
segment of the input id sequence. -/
theorem c5_order_preservation (env : ApiEnv) (subs : List Subscription) :
    ∃ n, (handleAutoConnect env subs).probed =
      (subs.map Subscription.id).take n := by
  by_cases hempty : subs.length = 0
  · exact ⟨0, by simp [handleAutoConnect, hempty]⟩
  · obtain ⟨n, hn⟩ := handleAutoConnectLoop_probed_take env subs
    exact ⟨n, by simp [handleAutoConnect, hempty, hn]⟩

/-- C6: invariant I2 — a probe result of a well-timed probe run has a
strictly positive latency when it succeeded and no latency at all when it
failed. -/
theorem c6_probe_invariant (server_id remarks : String)
    (socks_port http_port : Nat) (out : ProbeOutcome)
    (hw : out.wellTimed) :
    ((probeResult server_id remarks socks_port http_port out).success = true →
      ∃ p, (probeResult server_id remarks socks_port http_port out).ping_ms =
        some p ∧ 0 < p) ∧
    ((probeResult server_id remarks socks_port http_port out).success = false →
      (probeResult server_id remarks socks_port http_port out).ping_ms =
        none) := by
  cases out with
  | ok t0 t1 =>
    simp only [ProbeOutcome.wellTimed] at hw
    exact ⟨fun _ => ⟨(t1 : Int) - (t0 : Int), rfl, by omega⟩,
      fun h => by simp [probeResult] at h⟩
  | fail reason =>
    exact ⟨fun h => by simp [probeResult] at h, fun _ => rfl⟩

/-- C6 (witness): a probe measured from instant 5 to instant 90. -/
theorem c6_probe_invariant_witness :
    ProbeOutcome.wellTimed (ProbeOutcome.ok 5 90) ∧
    (((probeResult "srvA" "Server A" 1080 8080 (ProbeOutcome.ok 5 90)).success
        = true →
      ∃ p, (probeResult "srvA" "Server A" 1080 8080
        (ProbeOutcome.ok 5 90)).ping_ms = some p ∧ 0 < p) ∧
     ((probeResult "srvA" "Server A" 1080 8080 (ProbeOutcome.ok 5 90)).success
        = false →
      (probeResult "srvA" "Server A" 1080 8080
        (ProbeOutcome.ok 5 90)).ping_ms = none)) :=
  have h1 : ProbeOutcome.wellTimed (ProbeOutcome.ok 5 90) := by
    simp [ProbeOutcome.wellTimed]
  ⟨h1, c6_probe_invariant "srvA" "Server A" 1080 8080 (ProbeOutcome.ok 5 90) h1⟩

/-- C7 (counterexample).  The claim says the specific failure reason is
surfaced verbatim as the visible reason for the failure.  The `PingResult`
component always renders the literal text `Timeout`, whatever the reason;
the reason only lands in the `title` (hover tooltip) attribute. -/
theorem c7_counterexample :
    unreachableResult.success = false ∧
    unreachableResult.err_msg = some "endpoint unreachable" ∧
    pingResultView unreachableResult =
      ⟨"Timeout", some "endpoint unreachable"⟩ ∧
    (pingResultView unreachableResult).text ≠ "endpoint unreachable" := by
  decide

/-- C7 (amended): for every failed probe result carrying a non-empty reason
string, the rendered view is the constant visible label `Timeout` with the
reason surfaced verbatim in the hover tooltip; the reason is never shown as
the visible text. -/
theorem c7_reason_in_tooltip (r : ServerTestResult) (e : String)
    (hfail : r.success = false) (herr : r.err_msg = some e) (hne : e ≠ "") :
    pingResultView r = ⟨"Timeout", some e⟩ := by
  simp [pingResultView, hfail, jsOrElse, herr, hne]

/-- C7 (witness for the amended theorem). -/
theorem c7_reason_in_tooltip_witness :
    unreachableResult.success = false ∧
    unreachableResult.err_msg = some "endpoint unreachable" ∧
    ("endpoint unreachable" ≠ "") ∧
    pingResultView unreachableResult =
      ⟨"Timeout", some "endpoint unreachable"⟩ :=
  ⟨by decide, by decide, by decide,
   c7_reason_in_tooltip unreachableResult "endpoint unreachable"
     (by decide) (by decide) (by decide)⟩

/-- C8: evaluating the log-stream model at the failing trace.  After the
stream opens and the transport then fails, the handler logs
`Connection lost. Please close and reopen to reconnect.` and closes the
source — but the `isConnected` flip re-runs the `[isConnected]` effect,
which constructs a third `EventSource`: a connection to the stream endpoint
is open again (`current = some 2`) without the observer reopening the
viewer. -/
theorem c8_auto_reconnect_eval :
    mountLogStream.opened = 1 ∧
    (onOpenEvent mountLogStream).opened = 2 ∧
    (onErrorEvent (onOpenEvent mountLogStream)).opened = 3 ∧
    (onErrorEvent (onOpenEvent mountLogStream)).current = some 2 ∧
    LogMsg.connectionLost ∈ (onErrorEvent (onOpenEvent mountLogStream)).logs := by
  decide

/-- C9: the url-test handler only ever issues the url-test request itself —
no start, no stop — so the tunnel state is unchanged by testing a
subscription. -/
theorem c9_url_test_frame (env : ApiEnv) (sub : Subscription)
    (t : TunnelState) :
    (handleTestServers env sub).calls =
      [ApiCall.testSubscriptionServers sub.id] ∧
    applyCalls t (handleTestServers env sub).calls = t := by
  cases htest : env.testSubscriptionServers sub.id <;>
    simp [handleTestServers, htest, applyCalls, applyCall]

/-- C10: auto-connect on an empty subscription list performs no probe and no
start, never enters the connecting state, reports the informational prompt
to add a subscription and not the failure summary. -/
theorem c10_empty_input (env : ApiEnv) :
    (handleAutoConnect env []).probed = [] ∧
    (handleAutoConnect env []).starts = [] ∧
    (handleAutoConnect env []).enteredConnecting = false ∧
    (handleAutoConnect env []).toasts = [AppToast.addSubscriptionFirst] ∧
    AppToast.autoConnectFailed ∉ (handleAutoConnect env []).toasts := by
  refine ⟨rfl, rfl, rfl, rfl, ?_⟩
  simp [handleAutoConnect]

end Nabzram
